import Mathlib

set_option maxRecDepth 20000

/-!
Shallow embedding of the memory-bank-controller module (`src/mbc.rs`) of the
rboy emulator, together with proofs of the specification claims about it.

Conventions of the embedding:
* `u8` and `u16` values are `Nat`; at every operation boundary an argument of
  machine-integer type is reduced by `% 256` (`u8`) or `% 65536` (`u16`),
  which is exactly the information carried by the Rust parameter type.
* `i64` timestamps (`rtc_zero`, the wall-clock second counter supplied by the
  external time source) are `Int`; each operation that consults the clock in
  the Rust code takes the current time `now : Int` as an explicit argument.
* Fallible vector indexing (which fails the Rust task when out of bounds)
  is modelled with `Option`: a `none` result of an operation is an
  out-of-bounds panic of the original code.
* File input is an external collaborator: constructors take the contents of
  the save file, if one exists, as an already-read value (for the
  banking-with-clock variant the 8-byte big-endian epoch prefix arrives
  already decoded, paired with the remaining bytes).
-/

/-- `ram_size` of `mbc.rs`: save-memory size declared by the header code. -/
def ram_size (v : Nat) : Nat :=
  if v = 1 then 0x800
  else if v = 2 then 0x2000
  else if v = 3 then 0x8000
  else 0

/-- State of `MBC0` (Variant A). -/
structure MBC0State where
  rom : List Nat

/-- State of `MBC1` (Variant B).  `savepath` records whether a save path was
attached (the path itself is resolved by an external collaborator). -/
structure MBC1State where
  rom : List Nat
  ram : List Nat
  ram_on : Bool
  ram_mode : Bool
  rombank : Nat
  rambank : Nat
  savepath : Bool

/-- `MBC1::loadram`: if a save path is attached and the file exists, its whole
contents replace the save memory. -/
def MBC1.loadram (sf : Option (List Nat)) (s : MBC1State) : MBC1State :=
  if s.savepath then
    match sf with
    | none => s
    | some bytes => { s with ram := bytes }
  else s

/-- `MBC1::new`: reads the type byte at `0x147` and, for types `0x02`/`0x03`,
the RAM-size byte at `0x149`; `none` models the out-of-bounds panic when an
indexed header byte is missing. -/
def MBC1.new (data : List Nat) (sf : Option (List Nat)) : Option MBC1State :=
  match data.get? 0x147 with
  | none => none
  | some t =>
    let sizeOpt : Option Nat :=
      if t = 2 ∨ t = 3 then (data.get? 0x149).map ram_size else some 0
    match sizeOpt with
    | none => none
    | some ramsize =>
      some (MBC1.loadram sf
        { rom := data
          ram := List.replicate ramsize 0
          ram_on := false
          ram_mode := false
          rombank := 1
          rambank := 0
          savepath := t == 3 })

/-- `MBC1::readrom`. -/
def MBC1.readrom (s : MBC1State) (a : Nat) : Option Nat :=
  let a' := a % 65536
  if a' < 0x4000 then s.rom.get? a'
  else s.rom.get? (s.rombank * 0x4000 ||| (a' &&& 0x3FFF))

/-- `MBC1::readram`.  Note the incoming address is NOT masked to the 8 KiB
window here, exactly as in the source. -/
def MBC1.readram (s : MBC1State) (a : Nat) : Option Nat :=
  let a' := a % 65536
  if !s.ram_on then some 0
  else
    let b := if s.ram_mode then s.rambank else 0
    s.ram.get? (b * 0x2000 ||| a')

/-- `MBC1::writerom` (control writes). -/
def MBC1.writerom (s : MBC1State) (a v : Nat) : Option MBC1State :=
  let a' := a % 65536
  let v' := v % 256
  if a' ≤ 0x1FFF then some { s with ram_on := v' == 0x0A }
  else if a' ≤ 0x3FFF then
    some { s with rombank :=
      (s.rombank &&& 0x60) ||| (if v' &&& 0x1F = 0 then 1 else v' &&& 0x1F) }
  else if a' ≤ 0x5FFF then
    if !s.ram_mode then
      some { s with rombank := (s.rombank &&& 0x1F) ||| ((v' &&& 0x03) <<< 5) }
    else
      some { s with rambank := v' &&& 0x03 }
  else if a' ≤ 0x7FFF then some { s with ram_mode := (v' &&& 0x01) == 1 }
  else none

/-- `MBC1::writeram`. -/
def MBC1.writeram (s : MBC1State) (a v : Nat) : Option MBC1State :=
  let a' := a % 65536
  let v' := v % 256
  if !s.ram_on then some s
  else
    let b := if s.ram_mode then s.rambank else 0
    let idx := b * 0x2000 ||| a'
    if idx < s.ram.length then some { s with ram := s.ram.set idx v' }
    else none

/-- State of `MBC3` (Variant C).  `rtc_ram` is the fixed five-byte RTC
register file. -/
structure MBC3State where
  rom : List Nat
  ram : List Nat
  rombank : Nat
  rambank : Nat
  ram_on : Bool
  savepath : Bool
  rtc_ram : Fin 5 → Nat
  rtc_lock : Bool
  rtc_zero : Option Int

/-- `MBC3::calc_rtc_zero`: re-derive the reference epoch from the currently
visible register values; no-op when the variant is clock-incapable. -/
def MBC3.calc_rtc_zero (now : Int) (s : MBC3State) : MBC3State :=
  match s.rtc_zero with
  | none => s
  | some _ =>
    let days : Nat := ((s.rtc_ram 4 &&& 0x1) <<< 8) ||| s.rtc_ram 3
    let difftime : Int :=
      now - (s.rtc_ram 0 : Nat) - ((s.rtc_ram 1 : Nat) : Int) * 60
        - ((s.rtc_ram 2 : Nat) : Int) * 3600 - (days : Int) * 3600 * 24
    { s with rtc_zero := some difftime }

/-- `MBC3::calc_rtc_reg`: derive the five visible registers from the epoch.
`(now - tzero).toNat` is `max 0 (now - tzero)` of the source. -/
def MBC3.calc_rtc_reg (now : Int) (s : MBC3State) : MBC3State :=
  match s.rtc_zero with
  | none => s
  | some tzero =>
    if s.rtc_ram 4 &&& 0x40 = 0x40 then s
    else
      let difftime : Nat := (now - tzero).toNat
      let r := Function.update s.rtc_ram 0 (difftime % 60)
      let r := Function.update r 1 ((difftime / 60) % 60)
      let r := Function.update r 2 ((difftime / 3600) % 24)
      let days : Nat := difftime / (3600 * 24)
      let r := Function.update r 3 (days % 256)
      let r := Function.update r 4 ((r 4 &&& 0xFE) ||| ((days >>> 8) &&& 0x01))
      if 512 ≤ days then
        let r := Function.update r 4 (r 4 ||| 0x80)
        MBC3.calc_rtc_zero now { s with rtc_ram := r }
      else { s with rtc_ram := r }

/-- `MBC3::loadram`: the save file carries the epoch (already decoded from
its 8-byte big-endian prefix) and the save-memory bytes; the epoch is taken
over only when the variant is clock-capable. -/
def MBC3.loadram (sf : Option (Int × List Nat)) (s : MBC3State) : MBC3State :=
  if s.savepath then
    match sf with
    | none => s
    | some (rtc, bytes) =>
      { s with
        rtc_zero := if s.rtc_zero.isSome then some rtc else s.rtc_zero
        ram := bytes }
  else s

/-- `MBC3::new`: header dispatch on the type byte at `0x147`; the RAM-size
byte at `0x149` is read only for types `0x10`, `0x12`, `0x13`. -/
def MBC3.new (data : List Nat) (sf : Option (Int × List Nat)) :
    Option MBC3State :=
  match data.get? 0x147 with
  | none => none
  | some t =>
    let sizeOpt : Option Nat :=
      if t = 0x10 ∨ t = 0x12 ∨ t = 0x13 then (data.get? 0x149).map ram_size
      else some 0
    match sizeOpt with
    | none => none
    | some ramsize =>
      some (MBC3.loadram sf
        { rom := data
          ram := List.replicate ramsize 0
          rombank := 1
          rambank := 0
          ram_on := false
          savepath := t == 0x0F || t == 0x10 || t == 0x13
          rtc_ram := fun _ => 0
          rtc_lock := false
          rtc_zero := if t = 0x0F ∨ t = 0x10 then some 0 else none })

/-- `MBC3::readrom`. -/
def MBC3.readrom (s : MBC3State) (a : Nat) : Option Nat :=
  let a' := a % 65536
  if a' < 0x4000 then s.rom.get? a'
  else s.rom.get? (s.rombank * 0x4000 ||| (a' &&& 0x3FFF))

/-- `MBC3::readram`.  `(rambank + (2^32 - 8)) % 2^32` is the wrapping `u32`
subtraction `rambank - 0x08` of the source. -/
def MBC3.readram (s : MBC3State) (a : Nat) : Option Nat :=
  let a' := a % 65536
  if !s.ram_on then some 0
  else if s.rambank ≤ 3 then
    s.ram.get? (s.rambank * 0x2000 ||| (a' &&& 0x1FFF))
  else
    let i := (s.rambank + (2 ^ 32 - 8)) % 2 ^ 32
    if h : i < 5 then some (s.rtc_ram ⟨i, h⟩) else none

/-- `MBC3::writerom` (control writes, including the RTC latch window). -/
def MBC3.writerom (now : Int) (s : MBC3State) (a v : Nat) :
    Option MBC3State :=
  let a' := a % 65536
  let v' := v % 256
  if a' ≤ 0x1FFF then some { s with ram_on := v' == 0x0A }
  else if a' ≤ 0x3FFF then
    some { s with rombank := if v' &&& 0x7F = 0 then 1 else v' &&& 0x7F }
  else if a' ≤ 0x5FFF then some { s with rambank := v' }
  else if a' ≤ 0x7FFF then
    if v' = 0 then some { s with rtc_lock := false }
    else if v' = 1 then
      some { (if !s.rtc_lock then MBC3.calc_rtc_reg now s else s) with
             rtc_lock := true }
    else some s
  else none

/-- `MBC3::writeram`. -/
def MBC3.writeram (now : Int) (s : MBC3State) (a v : Nat) :
    Option MBC3State :=
  let a' := a % 65536
  let v' := v % 256
  if !s.ram_on then some s
  else if s.rambank ≤ 3 then
    let idx := s.rambank * 0x2000 ||| (a' &&& 0x1FFF)
    if idx < s.ram.length then some { s with ram := s.ram.set idx v' }
    else none
  else
    let i := (s.rambank + (2 ^ 32 - 8)) % 2 ^ 32
    if h : i < 5 then
      some (MBC3.calc_rtc_zero now
        { s with rtc_ram := Function.update s.rtc_ram ⟨i, h⟩ v' })
    else none

/-- The loaded device behind the common capability interface. -/
inductive Device where
  | mbc0 : MBC0State → Device
  | mbc1 : MBC1State → Device
  | mbc3 : MBC3State → Device

/-- Failure modes of the loader: the two explicit `fail!` conditions plus the
out-of-bounds panic of a header read past the end of the image. -/
inductive LoadError where
  | tooSmall : LoadError
  | unsupported : Nat → LoadError
  | outOfBounds : LoadError

/-- `get_mbc` of `mbc.rs`: size check, then dispatch on the type byte.
The old-Rust `0x01 .. 0x03` and `0x0F .. 0x13` match patterns are inclusive
ranges. -/
def get_mbc (data : List Nat) (sf1 : Option (List Nat))
    (sf3 : Option (Int × List Nat)) : Except LoadError Device :=
  if data.length < 0x149 then Except.error LoadError.tooSmall
  else
    match data.get? 0x147 with
    | none => Except.error LoadError.outOfBounds
    | some t =>
      if t = 0 then Except.ok (Device.mbc0 { rom := data })
      else if 1 ≤ t ∧ t ≤ 3 then
        match MBC1.new data sf1 with
        | none => Except.error LoadError.outOfBounds
        | some s => Except.ok (Device.mbc1 s)
      else if 0x0F ≤ t ∧ t ≤ 0x13 then
        match MBC3.new data sf3 with
        | none => Except.error LoadError.outOfBounds
        | some s => Except.ok (Device.mbc3 s)
      else Except.error (LoadError.unsupported t)

/-- One bus operation against a Variant B device. -/
inductive MBC1Op where
  | readrom (a : Nat)
  | readram (a : Nat)
  | writerom (a v : Nat)
  | writeram (a v : Nat)

/-- Effect of one operation on a Variant B device (reads do not mutate). -/
def MBC1.step (s : MBC1State) : MBC1Op → Option MBC1State
  | MBC1Op.readrom a => (MBC1.readrom s a).map fun _ => s
  | MBC1Op.readram a => (MBC1.readram s a).map fun _ => s
  | MBC1Op.writerom a v => MBC1.writerom s a v
  | MBC1Op.writeram a v => MBC1.writeram s a v

/-- Run a sequence of operations against a Variant B device. -/
def MBC1.run (s : MBC1State) : List MBC1Op → Option MBC1State
  | [] => some s
  | op :: ops =>
    match MBC1.step s op with
    | none => none
    | some s' => MBC1.run s' ops

/-- One bus operation against a Variant C device; operations that consult
the external time source carry the current time. -/
inductive MBC3Op where
  | readrom (a : Nat)
  | readram (a : Nat)
  | writerom (now : Int) (a v : Nat)
  | writeram (now : Int) (a v : Nat)

/-- Effect of one operation on a Variant C device (reads do not mutate). -/
def MBC3.step (s : MBC3State) : MBC3Op → Option MBC3State
  | MBC3Op.readrom a => (MBC3.readrom s a).map fun _ => s
  | MBC3Op.readram a => (MBC3.readram s a).map fun _ => s
  | MBC3Op.writerom now a v => MBC3.writerom now s a v
  | MBC3Op.writeram now a v => MBC3.writeram now s a v

/-- Run a sequence of operations against a Variant C device. -/
def MBC3.run (s : MBC3State) : List MBC3Op → Option MBC3State
  | [] => some s
  | op :: ops =>
    match MBC3.step s op with
    | none => none
    | some s' => MBC3.run s' ops

/-- A clock-incapable Variant C image: type byte `0x11` at `0x147`. -/
def c1dat : List Nat := List.replicate 0x147 0 ++ [0x11]

/-- The Variant C device constructed from `c1dat`. -/
def c1s0 : MBC3State :=
  { rom := c1dat
    ram := []
    rombank := 1
    rambank := 0
    ram_on := false
    savepath := false
    rtc_ram := fun _ => 0
    rtc_lock := false
    rtc_zero := none }

/-- `c1s0` after enabling save memory and selecting RAM bank 4. -/
def c1s1 : MBC3State := { c1s0 with ram_on := true, rambank := 4 }

/-- A 0x8000-byte image whose type byte at `0x147` is `0x01` (Variant B,
no RAM). -/
def c2dat : List Nat := List.replicate 0x147 0 ++ (1 :: List.replicate 0x7EB8 0)

/-- The Variant B device constructed from `c2dat`: its save memory is empty. -/
def c2s0 : MBC1State :=
  { rom := c2dat
    ram := []
    ram_on := false
    ram_mode := false
    rombank := 1
    rambank := 0
    savepath := false }

/-- `c2s0` after the `0x0A` RAM-enable control write. -/
def c2s1 : MBC1State := { c2s0 with ram_on := true }

/-- An image of exactly `0x149` bytes whose type byte at `0x147` is `2`. -/
def c8dat : List Nat := List.replicate 0x147 0 ++ [2, 0]

/-- Image of exactly `0x149` bytes with type byte `t` at offset `0x147`. -/
def c9dat (t : Nat) : List Nat := List.replicate 0x147 0 ++ [t, 0]

/-- The off-by-one scenario for type byte `t`: the image passes the
`< 0x149` size check, the RAM-size byte at `0x149` is absent, and loading
ends in the out-of-bounds header read. -/
def c9oob (t : Nat) : Prop :=
  (c9dat t).length = 0x149 ∧ (c9dat t).get? 0x147 = some t ∧
    (c9dat t).get? 0x149 = none ∧
    get_mbc (c9dat t) none none = Except.error LoadError.outOfBounds

/-- A convenient concrete Variant C state used to instantiate theorems. -/
def mbc3Base : MBC3State :=
  { rom := []
    ram := List.replicate 0x2000 0
    rombank := 1
    rambank := 0
    ram_on := false
    savepath := false
    rtc_ram := fun _ => 0
    rtc_lock := false
    rtc_zero := none }

/-- Concrete clock-capable state: epoch 5, all registers zero. -/
def w3s : MBC3State := { mbc3Base with rtc_zero := some 5 }

/-- Concrete clock-capable state with the latch open. -/
def w4s : MBC3State := { mbc3Base with rtc_zero := some 0 }

/-- Concrete Variant B state with `rom_bank = 0x65` (high bits `0x60`,
low bits `5`). -/
def w5s : MBC1State :=
  { rom := []
    ram := []
    ram_on := false
    ram_mode := false
    rombank := 0x65
    rambank := 0
    savepath := false }

/-- A minimal image with type byte `0` at `0x147`. -/
def w6dat : List Nat := List.replicate 0x147 0 ++ [0]

/-- The Variant B device built from `w6dat`. -/
def w6s1 : MBC1State :=
  { rom := w6dat
    ram := []
    ram_on := false
    ram_mode := false
    rombank := 1
    rambank := 0
    savepath := false }

/-- The Variant C device built from `w6dat`. -/
def w6s3 : MBC3State :=
  { rom := w6dat
    ram := []
    rombank := 1
    rambank := 0
    ram_on := false
    savepath := false
    rtc_ram := fun _ => 0
    rtc_lock := false
    rtc_zero := none }

/-- Concrete clock-capable state with in-range register values:
seconds 35, minutes 1, hours 0, day counter 0, flags 0. -/
def w7s : MBC3State :=
  { mbc3Base with
    rtc_zero := some 0
    rtc_ram := fun j => if j = 0 then 35 else if j = 1 then 1 else 0 }

/-! ### Helper lemmas -/

theorem and31_of_lt {m : Nat} (h : m < 32) : m &&& 0x1F = m := by
  rw [show (0x1F : Nat) = 2 ^ 5 - 1 by norm_num, Nat.and_pow_two_sub_one_eq_mod]
  exact Nat.mod_eq_of_lt ((by norm_num : (32 : Nat) = 2 ^ 5) ▸ h)

theorem shift5_and31 (x : Nat) : (x <<< 5) &&& 0x1F = 0 := by
  rw [Nat.shiftLeft_eq, show (0x1F : Nat) = 2 ^ 5 - 1 by norm_num,
    Nat.and_pow_two_sub_one_eq_mod]
  exact Nat.mul_mod_left x (2 ^ 5)

theorem and31_and96 (m : Nat) (h : m &&& 0x1F = m) : m &&& 0x60 = 0 := by
  rw [← h, Nat.and_assoc, show (0x1F &&& 0x60 : Nat) = 0 by decide, Nat.and_zero]

theorem low5_or_high (rb m : Nat) (hm : m &&& 0x1F = m) :
    ((rb &&& 0x60) ||| m) &&& 0x1F = m := by
  rw [Nat.and_distrib_right, Nat.and_assoc,
    show (0x60 &&& 0x1F : Nat) = 0 by decide, Nat.and_zero, Nat.zero_or, hm]

theorem high2_or_low (rb m : Nat) (hm : m &&& 0x1F = m) :
    ((rb &&& 0x60) ||| m) &&& 0x60 = rb &&& 0x60 := by
  rw [Nat.and_distrib_right, Nat.and_assoc,
    show (0x60 &&& 0x60 : Nat) = 0x60 by decide, and31_and96 m hm, Nat.or_zero]

theorem low5_mode_write (rb v' : Nat) :
    ((rb &&& 0x1F) ||| ((v' &&& 0x03) <<< 5)) &&& 0x1F = rb &&& 0x1F := by
  rw [Nat.and_distrib_right, Nat.and_assoc,
    show (0x1F &&& 0x1F : Nat) = 0x1F by decide, shift5_and31, Nat.or_zero]

theorem bank_sel_and31 (v' : Nat) :
    (if v' &&& 0x1F = 0 then 1 else v' &&& 0x1F) &&& 0x1F
      = (if v' &&& 0x1F = 0 then 1 else v' &&& 0x1F) := by
  split_ifs with h
  · decide
  · exact and31_of_lt (lt_of_le_of_lt Nat.and_le_right (by norm_num))

theorem bank_sel_ne_zero (v' : Nat) :
    (if v' &&& 0x1F = 0 then 1 else v' &&& 0x1F) ≠ 0 := by
  split_ifs with h
  · decide
  · exact h

theorem MBC3.calc_rtc_zero_none (now : Int) (s : MBC3State)
    (h : s.rtc_zero = none) : MBC3.calc_rtc_zero now s = s := by
  unfold MBC3.calc_rtc_zero
  rw [h]

theorem MBC3.calc_rtc_reg_none (now : Int) (s : MBC3State)
    (h : s.rtc_zero = none) : MBC3.calc_rtc_reg now s = s := by
  unfold MBC3.calc_rtc_reg
  rw [h]

theorem MBC3.calc_rtc_zero_shape (now : Int) (s : MBC3State) :
    ∃ z, MBC3.calc_rtc_zero now s = { s with rtc_zero := z } := by
  unfold MBC3.calc_rtc_zero
  cases s.rtc_zero <;> exact ⟨_, rfl⟩

theorem MBC3.calc_rtc_reg_shape (now : Int) (s : MBC3State) :
    ∃ f z, MBC3.calc_rtc_reg now s = { s with rtc_ram := f, rtc_zero := z } := by
  unfold MBC3.calc_rtc_reg
  cases s.rtc_zero with
  | none => exact ⟨s.rtc_ram, s.rtc_zero, rfl⟩
  | some tz =>
    dsimp only
    split_ifs
    · exact ⟨s.rtc_ram, s.rtc_zero, rfl⟩
    · obtain ⟨z, hz⟩ := MBC3.calc_rtc_zero_shape now _
      exact ⟨_, z, by rw [hz]⟩
    · exact ⟨_, some tz, rfl⟩

/-! ### Claim theorems -/

/-- Claim C9: an image of exactly `0x149` bytes passes the loader's size
check, yet for type bytes `0x02`, `0x03`, `0x10`, `0x12`, `0x13` the
constructor reads the RAM-size byte at offset `0x149`, one past the end of
the image: the length validation is off by one and construction performs an
out-of-bounds index. -/
theorem C9 : c9oob 2 ∧ c9oob 3 ∧ c9oob 0x10 ∧ c9oob 0x12 ∧ c9oob 0x13 :=
  ⟨⟨rfl, rfl, rfl, rfl⟩, ⟨rfl, rfl, rfl, rfl⟩, ⟨rfl, rfl, rfl, rfl⟩,
   ⟨rfl, rfl, rfl, rfl⟩, ⟨rfl, rfl, rfl, rfl⟩⟩

/-- Claim C1 (code bug): in the reachable Variant C state obtained by
enabling save memory and writing `4` to the `0x4000`–`0x5FFF` window, the
`ram_bank` selector is stored unmasked, and both `read_save` and
`write_save` index the five-byte RTC file at the wrapped `u32` offset
`4 - 8`, out of bounds (`none` = panic) — refuting the claim that every
such access lands in a RAM bank or an RTC register. -/
theorem C1 :
    MBC3.new c1dat none = some c1s0
  ∧ MBC3.run c1s0
      [MBC3Op.writerom 0 0x0000 0x0A, MBC3Op.writerom 0 0x4000 0x04]
      = some c1s1
  ∧ c1s1.ram_on = true
  ∧ c1s1.rambank = 4
  ∧ MBC3.readram c1s1 0x0000 = none
  ∧ MBC3.writeram 0 c1s1 0x0000 0x00 = none :=
  ⟨rfl, rfl, rfl, rfl, rfl, rfl⟩

/-- Claim C2 (code bug): the Variant B device built from a 0x8000-byte image
with type byte `0x01` has save memory of size 0 and returns 0 from every
`read_save` while RAM is disabled; but after the `0x0A` enable write,
`read_save` indexes the empty save memory out of bounds (`none` = panic)
instead of returning 0. -/
theorem C2 :
    c2dat.length = 0x8000
  ∧ c2dat.get? 0x147 = some 1
  ∧ MBC1.new c2dat none = some c2s0
  ∧ c2s0.ram.length = 0
  ∧ (∀ a, MBC1.readram c2s0 a = some 0)
  ∧ MBC1.writerom c2s0 0x0000 0x0A = some c2s1
  ∧ MBC1.readram c2s1 0x0000 = none := by
  have hget : c2dat.get? 0x147 = some 1 := by
    rw [c2dat, List.get?_append_right (by rw [List.length_replicate])]
    rfl
  have hnew : MBC1.new c2dat none = some c2s0 := by
    unfold MBC1.new
    rw [hget]
    rfl
  refine ⟨?_, hget, hnew, rfl, fun _ => rfl, rfl, rfl⟩
  rw [c2dat, List.length_append, List.length_replicate, List.length_cons,
    List.length_replicate]

/-- Claim C8, counterexample: an image of exactly `0x149` bytes with type
byte `2` does not fail the size check and does not build a Variant B
device; the loader instead hits the out-of-bounds header read at `0x149`. -/
theorem C8_counterexample :
    c8dat.length = 0x149 ∧ c8dat.get? 0x147 = some 2 ∧
      get_mbc c8dat none none = Except.error LoadError.outOfBounds :=
  ⟨rfl, rfl, rfl⟩

theorem MBC1.loadram_shape_b (sf : Option (List Nat)) (s : MBC1State) :
    ∃ rm, MBC1.loadram sf s = { s with ram := rm } := by
  unfold MBC1.loadram
  split_ifs
  · cases sf with
    | none => exact ⟨s.ram, rfl⟩
    | some bytes => exact ⟨bytes, rfl⟩
  · exact ⟨s.ram, rfl⟩

theorem MBC3.loadram_shape_c (sf : Option (Int × List Nat)) (s : MBC3State) :
    ∃ rm z, MBC3.loadram sf s = { s with ram := rm, rtc_zero := z }
      ∧ (s.rtc_zero = none → z = none) := by
  cases sf with
  | none =>
    unfold MBC3.loadram
    split_ifs <;> exact ⟨s.ram, s.rtc_zero, rfl, fun h => h⟩
  | some p =>
    obtain ⟨rtc, bytes⟩ := p
    unfold MBC3.loadram
    dsimp only
    split_ifs with h1 h2
    · refine ⟨bytes, some rtc, rfl, fun h => ?_⟩
      rw [h] at h2
      exact absurd h2 (by simp)
    · exact ⟨bytes, s.rtc_zero, rfl, fun h => h⟩
    · exact ⟨s.ram, s.rtc_zero, rfl, fun h => h⟩

theorem MBC1.new_shape_b (data : List Nat) (sf : Option (List Nat))
    (s0 : MBC1State) (h : MBC1.new data sf = some s0) :
    s0.rombank = 1 ∧ s0.rombank &&& 0x1F ≠ 0 := by
  unfold MBC1.new at h
  cases hg : data.get? 0x147 with
  | none => rw [hg] at h; exact absurd h (by simp)
  | some t =>
    rw [hg] at h
    dsimp only at h
    cases hs : (if t = 2 ∨ t = 3 then (data.get? 0x149).map ram_size
        else some 0) with
    | none => rw [hs] at h; exact absurd h (by simp)
    | some rs =>
      rw [hs] at h
      simp only [Option.some.injEq] at h
      subst h
      obtain ⟨rm, hrm⟩ := MBC1.loadram_shape_b sf _
      rw [hrm]
      refine ⟨rfl, ?_⟩
      show (1 : Nat) &&& 0x1F ≠ 0
      decide

theorem MBC3.new_shape_c (data : List Nat) (sf : Option (Int × List Nat))
    (s0 : MBC3State) (h : MBC3.new data sf = some s0) :
    s0.rombank = 1
      ∧ (∀ t, data.get? 0x147 = some t → t ≠ 0x0F → t ≠ 0x10 →
          s0.rtc_zero = none) := by
  unfold MBC3.new at h
  cases hg : data.get? 0x147 with
  | none => rw [hg] at h; exact absurd h (by simp)
  | some t =>
    rw [hg] at h
    dsimp only at h
    cases hs : (if t = 0x10 ∨ t = 0x12 ∨ t = 0x13 then
        (data.get? 0x149).map ram_size else some 0) with
    | none => rw [hs] at h; exact absurd h (by simp)
    | some rs =>
      rw [hs] at h
      simp only [Option.some.injEq] at h
      subst h
      obtain ⟨rm, z, hrm, hz⟩ := MBC3.loadram_shape_c sf _
      rw [hrm]
      refine ⟨rfl, fun t' ht' h15 h16 => ?_⟩
      simp only [Option.some.injEq] at ht'
      subst ht'
      exact hz (by simp [h15, h16])

theorem MBC1.writerom_low (s : MBC1State) (a v : Nat) (s' : MBC1State)
    (h : MBC1.writerom s a v = some s') (hs : s.rombank &&& 0x1F ≠ 0) :
    s'.rombank &&& 0x1F ≠ 0 := by
  unfold MBC1.writerom at h
  dsimp only at h
  split_ifs at h
  all_goals first
    | exact Option.noConfusion h
    | (simp only [Option.some.injEq] at h
       subst h
       first
         | exact hs
         | (show ((s.rombank &&& 0x60) ||| 1) &&& 0x1F ≠ 0
            rw [low5_or_high _ _ (by decide : (1 : Nat) &&& 0x1F = 1)]
            decide)
         | (show ((s.rombank &&& 0x60) ||| (v % 256 &&& 0x1F)) &&& 0x1F ≠ 0
            rw [low5_or_high _ _
              (and31_of_lt (lt_of_le_of_lt Nat.and_le_right (by norm_num)))]
            assumption)
         | (show ((s.rombank &&& 0x1F) ||| ((v % 256 &&& 0x03) <<< 5)) &&& 0x1F
              ≠ 0
            rw [low5_mode_write]
            exact hs))

theorem MBC1.writeram_rombank (s : MBC1State) (a v : Nat) (s' : MBC1State)
    (h : MBC1.writeram s a v = some s') : s'.rombank = s.rombank := by
  unfold MBC1.writeram at h
  dsimp only at h
  split_ifs at h
  all_goals first
    | exact Option.noConfusion h
    | (simp only [Option.some.injEq] at h
       subst h
       rfl)

theorem MBC1.step_low (s s' : MBC1State) (op : MBC1Op)
    (h : MBC1.step s op = some s') (hs : s.rombank &&& 0x1F ≠ 0) :
    s'.rombank &&& 0x1F ≠ 0 := by
  cases op with
  | readrom a =>
    simp only [MBC1.step, Option.map_eq_some'] at h
    obtain ⟨x, _, rfl⟩ := h
    exact hs
  | readram a =>
    simp only [MBC1.step, Option.map_eq_some'] at h
    obtain ⟨x, _, rfl⟩ := h
    exact hs
  | writerom a v => exact MBC1.writerom_low s a v s' h hs
  | writeram a v => rw [MBC1.writeram_rombank s a v s' h]; exact hs

theorem MBC1.run_low (ops : List MBC1Op) (s s' : MBC1State)
    (h : MBC1.run s ops = some s') (hs : s.rombank &&& 0x1F ≠ 0) :
    s'.rombank &&& 0x1F ≠ 0 := by
  induction ops generalizing s with
  | nil =>
    simp only [MBC1.run, Option.some.injEq] at h
    subst h
    exact hs
  | cons op ops ih =>
    simp only [MBC1.run] at h
    cases hstep : MBC1.step s op with
    | none => rw [hstep] at h; exact absurd h (by simp)
    | some s1 =>
      rw [hstep] at h
      exact ih s1 h (MBC1.step_low s s1 op hstep hs)

theorem MBC3.calc_rtc_zero_rombank (now : Int) (s : MBC3State) :
    (MBC3.calc_rtc_zero now s).rombank = s.rombank := by
  obtain ⟨z, hz⟩ := MBC3.calc_rtc_zero_shape now s
  rw [hz]

theorem MBC3.calc_rtc_reg_rombank (now : Int) (s : MBC3State) :
    (MBC3.calc_rtc_reg now s).rombank = s.rombank := by
  obtain ⟨f, z, h⟩ := MBC3.calc_rtc_reg_shape now s
  rw [h]

theorem MBC3.calc_rtc_zero_rtc_ram (now : Int) (s : MBC3State) :
    (MBC3.calc_rtc_zero now s).rtc_ram = s.rtc_ram := by
  obtain ⟨z, hz⟩ := MBC3.calc_rtc_zero_shape now s
  rw [hz]

theorem MBC3.calc_rtc_zero_none_proj (now : Int) (s : MBC3State)
    (h : s.rtc_zero = none) : (MBC3.calc_rtc_zero now s).rtc_zero = none := by
  rw [MBC3.calc_rtc_zero_none now s h]
  exact h

theorem MBC3.calc_rtc_reg_none_proj (now : Int) (s : MBC3State)
    (h : s.rtc_zero = none) : (MBC3.calc_rtc_reg now s).rtc_zero = none := by
  rw [MBC3.calc_rtc_reg_none now s h]
  exact h

theorem MBC3.writerom_rombank_pos (now : Int) (s : MBC3State) (a v : Nat)
    (s' : MBC3State) (h : MBC3.writerom now s a v = some s')
    (hs : 1 ≤ s.rombank) : 1 ≤ s'.rombank := by
  unfold MBC3.writerom at h
  dsimp only at h
  split_ifs at h
  all_goals first
    | exact Option.noConfusion h
    | (simp only [Option.some.injEq] at h
       subst h
       first
         | exact hs
         | exact Nat.le_refl 1
         | exact Nat.pos_of_ne_zero (by assumption)
         | (rw [MBC3.calc_rtc_reg_rombank]
            exact hs))

theorem MBC3.writeram_rombank_pos (now : Int) (s : MBC3State) (a v : Nat)
    (s' : MBC3State) (h : MBC3.writeram now s a v = some s')
    (hs : 1 ≤ s.rombank) : 1 ≤ s'.rombank := by
  unfold MBC3.writeram at h
  dsimp only at h
  split_ifs at h
  all_goals first
    | exact Option.noConfusion h
    | (simp only [Option.some.injEq] at h
       subst h
       first
         | exact hs
         | (rw [MBC3.calc_rtc_zero_rombank]
            exact hs))

theorem MBC3.step_rombank_pos (s s' : MBC3State) (op : MBC3Op)
    (h : MBC3.step s op = some s') (hs : 1 ≤ s.rombank) : 1 ≤ s'.rombank := by
  cases op with
  | readrom a =>
    simp only [MBC3.step, Option.map_eq_some'] at h
    obtain ⟨x, _, rfl⟩ := h
    exact hs
  | readram a =>
    simp only [MBC3.step, Option.map_eq_some'] at h
    obtain ⟨x, _, rfl⟩ := h
    exact hs
  | writerom now a v => exact MBC3.writerom_rombank_pos now s a v s' h hs
  | writeram now a v => exact MBC3.writeram_rombank_pos now s a v s' h hs

theorem MBC3.run_rombank_pos (ops : List MBC3Op) (s s' : MBC3State)
    (h : MBC3.run s ops = some s') (hs : 1 ≤ s.rombank) : 1 ≤ s'.rombank := by
  induction ops generalizing s with
  | nil =>
    simp only [MBC3.run, Option.some.injEq] at h
    subst h
    exact hs
  | cons op ops ih =>
    simp only [MBC3.run] at h
    cases hstep : MBC3.step s op with
    | none => rw [hstep] at h; exact Option.noConfusion h
    | some s1 =>
      rw [hstep] at h
      exact ih s1 h (MBC3.step_rombank_pos s s1 op hstep hs)

theorem MBC3.writerom_zero_none (now : Int) (s : MBC3State) (a v : Nat)
    (s' : MBC3State) (h : MBC3.writerom now s a v = some s')
    (hz : s.rtc_zero = none) : s'.rtc_zero = none := by
  unfold MBC3.writerom at h
  dsimp only at h
  split_ifs at h
  all_goals first
    | exact Option.noConfusion h
    | (simp only [Option.some.injEq] at h
       subst h
       first
         | exact hz
         | exact MBC3.calc_rtc_reg_none_proj now s hz)

theorem MBC3.writeram_zero_none (now : Int) (s : MBC3State) (a v : Nat)
    (s' : MBC3State) (h : MBC3.writeram now s a v = some s')
    (hz : s.rtc_zero = none) : s'.rtc_zero = none := by
  unfold MBC3.writeram at h
  dsimp only at h
  split_ifs at h
  all_goals first
    | exact Option.noConfusion h
    | (simp only [Option.some.injEq] at h
       subst h
       first
         | exact hz
         | exact MBC3.calc_rtc_zero_none_proj now _ hz)

theorem MBC3.step_zero_none (s s' : MBC3State) (op : MBC3Op)
    (h : MBC3.step s op = some s') (hz : s.rtc_zero = none) :
    s'.rtc_zero = none := by
  cases op with
  | readrom a =>
    simp only [MBC3.step, Option.map_eq_some'] at h
    obtain ⟨x, _, rfl⟩ := h
    exact hz
  | readram a =>
    simp only [MBC3.step, Option.map_eq_some'] at h
    obtain ⟨x, _, rfl⟩ := h
    exact hz
  | writerom now a v => exact MBC3.writerom_zero_none now s a v s' h hz
  | writeram now a v => exact MBC3.writeram_zero_none now s a v s' h hz

theorem MBC3.run_zero_none (ops : List MBC3Op) (s s' : MBC3State)
    (h : MBC3.run s ops = some s') (hz : s.rtc_zero = none) :
    s'.rtc_zero = none := by
  induction ops generalizing s with
  | nil =>
    simp only [MBC3.run, Option.some.injEq] at h
    subst h
    exact hz
  | cons op ops ih =>
    simp only [MBC3.run] at h
    cases hstep : MBC3.step s op with
    | none => rw [hstep] at h; exact Option.noConfusion h
    | some s1 =>
      rw [hstep] at h
      exact ih s1 h (MBC3.step_zero_none s s1 op hstep hz)

theorem low5_pos {n : Nat} (h : n &&& 0x1F ≠ 0) : 1 ≤ n := by
  rcases Nat.eq_zero_or_pos n with h0 | h1
  · subst h0
    exact absurd (by decide) h
  · exact h1

/-- Claim C6: for Variants B and C, `rom_bank ≥ 1` in every reachable state:
it is 1 at construction; any sequence of public operations preserves it
(a bank-select write whose masked value is 0 is coerced to 1); and Variant
B's high-bit write with `ram_mode` false leaves the low 5 bits intact. -/
theorem C6 :
    (∀ data sf s0, MBC1.new data sf = some s0 → s0.rombank = 1)
  ∧ (∀ data sf s0, MBC3.new data sf = some s0 → s0.rombank = 1)
  ∧ (∀ data sf s0 ops s, MBC1.new data sf = some s0 →
      MBC1.run s0 ops = some s → 1 ≤ s.rombank)
  ∧ (∀ data sf s0 ops s, MBC3.new data sf = some s0 →
      MBC3.run s0 ops = some s → 1 ≤ s.rombank)
  ∧ (∀ (s : MBC1State) a v s', 0x4000 ≤ a % 65536 → a % 65536 ≤ 0x5FFF →
      s.ram_mode = false → MBC1.writerom s a v = some s' →
      s'.rombank &&& 0x1F = s.rombank &&& 0x1F) := by
  refine ⟨fun data sf s0 h => (MBC1.new_shape_b data sf s0 h).1,
    fun data sf s0 h => (MBC3.new_shape_c data sf s0 h).1,
    fun data sf s0 ops s hnew hrun =>
      low5_pos (MBC1.run_low ops s0 s hrun (MBC1.new_shape_b data sf s0 hnew).2),
    fun data sf s0 ops s hnew hrun =>
      MBC3.run_rombank_pos ops s0 s hrun
        (le_of_eq (MBC3.new_shape_c data sf s0 hnew).1.symm),
    fun s a v s' ha1 ha2 hm h => ?_⟩
  unfold MBC1.writerom at h
  dsimp only at h
  split_ifs at h
  all_goals first
    | exact Option.noConfusion h
    | (exfalso; omega)
    | (simp only [Option.some.injEq] at h
       subst h
       first
         | rfl
         | exact low5_mode_write s.rombank (v % 256))

/-- Claim C6, witness: concrete devices built from `w6dat`, run over the
empty operation sequence, have `rom_bank ≥ 1`. -/
theorem C6_witness : 1 ≤ w6s1.rombank ∧ 1 ≤ w6s3.rombank :=
  ⟨C6.2.2.1 w6dat none w6s1 [] w6s1 rfl rfl,
   C6.2.2.2.1 w6dat none w6s3 [] w6s3 rfl rfl⟩

/-- Claim C5: for Variant B, writing `v` to the `0x2000`–`0x3FFF` window
sets the low 5 bits of `rom_bank` to `max (v &&& 0x1F) 1`, leaves bits 5–6
unchanged, and a subsequent program read at an address `≥ 0x4000` indexes
`ProgramImage[rom_bank * 0x4000 ||| (addr &&& 0x3FFF)]`. -/
theorem C5 (s : MBC1State) (a v : Nat) (ha1 : 0x2000 ≤ a) (ha2 : a ≤ 0x3FFF)
    (hv : v < 256) :
    ∃ s', MBC1.writerom s a v = some s'
      ∧ s'.rombank &&& 0x1F = max (v &&& 0x1F) 1
      ∧ s'.rombank &&& 0x60 = s.rombank &&& 0x60
      ∧ ∀ a', 0x4000 ≤ a' → a' < 0x10000 →
          MBC1.readrom s' a'
            = s'.rom.get? (s'.rombank * 0x4000 ||| (a' &&& 0x3FFF)) := by
  have hvmod : v % 256 = v := Nat.mod_eq_of_lt hv
  refine ⟨{ s with rombank := (s.rombank &&& 0x60) |||
      (if v % 256 &&& 0x1F = 0 then 1 else v % 256 &&& 0x1F) }, ?_, ?_, ?_, ?_⟩
  · unfold MBC1.writerom
    dsimp only
    rw [Nat.mod_eq_of_lt (show a < 65536 by omega), if_neg (by omega),
      if_pos (by omega)]
  · show ((s.rombank &&& 0x60) |||
        (if v % 256 &&& 0x1F = 0 then 1 else v % 256 &&& 0x1F)) &&& 0x1F
      = max (v &&& 0x1F) 1
    rw [hvmod, low5_or_high _ _ (bank_sel_and31 v)]
    split_ifs with h0
    · rw [h0]
      decide
    · exact (Nat.max_eq_left (Nat.one_le_iff_ne_zero.mpr h0)).symm
  · show ((s.rombank &&& 0x60) |||
        (if v % 256 &&& 0x1F = 0 then 1 else v % 256 &&& 0x1F)) &&& 0x60
      = s.rombank &&& 0x60
    exact high2_or_low _ _ (bank_sel_and31 (v % 256))
  · intro a' ha1' ha2'
    unfold MBC1.readrom
    dsimp only
    rw [Nat.mod_eq_of_lt ha2', if_neg (by omega)]

/-- Claim C5, witness: writing `0x25` at `0x2000` to the concrete state
`w5s` yields low bank bits `5` and preserved high bits `0x60`. -/
theorem C5_witness :
    ∃ s', MBC1.writerom w5s 0x2000 0x25 = some s'
      ∧ s'.rombank &&& 0x1F = 5
      ∧ s'.rombank &&& 0x60 = 0x60 := by
  obtain ⟨s', h1, h2, h3, _⟩ :=
    C5 w5s 0x2000 0x25 (by decide) (by decide) (by decide)
  exact ⟨s', h1, by simpa using h2, by simpa using h3⟩

/-- Claim C10: for Variant C built from a clock-incapable type byte
(`0x11`, `0x12`, `0x13`) the reference epoch is absent at construction
(loading a save file does not set it), stays absent under every operation
sequence, both RTC derivations are no-ops, and RAM-bank selectors 8–12
address five plain bytes: read verbatim, written only by `write_save`, and
unaffected by time and by latch writes. -/
theorem C10 :
    (∀ data sf s0 t, data.get? 0x147 = some t →
      (t = 0x11 ∨ t = 0x12 ∨ t = 0x13) →
      MBC3.new data sf = some s0 → s0.rtc_zero = none)
  ∧ (∀ s0 ops s, s0.rtc_zero = none → MBC3.run s0 ops = some s →
      s.rtc_zero = none)
  ∧ (∀ (s : MBC3State) now, s.rtc_zero = none →
      MBC3.calc_rtc_reg now s = s ∧ MBC3.calc_rtc_zero now s = s)
  ∧ (∀ (s : MBC3State) a i (hi : i < 5), s.ram_on = true →
      s.rambank = 8 + i → MBC3.readram s a = some (s.rtc_ram ⟨i, hi⟩))
  ∧ (∀ (s : MBC3State) now a v i (hi : i < 5), s.rtc_zero = none →
      s.ram_on = true → s.rambank = 8 + i →
      MBC3.writeram now s a v
        = some { s with rtc_ram := Function.update s.rtc_ram ⟨i, hi⟩ (v % 256) })
  ∧ (∀ (s : MBC3State) now a v s', s.rtc_zero = none →
      MBC3.writerom now s a v = some s' → s'.rtc_ram = s.rtc_ram)
  ∧ (∀ (s : MBC3State) now a v s', s.rambank ≤ 3 →
      MBC3.writeram now s a v = some s' → s'.rtc_ram = s.rtc_ram) := by
  refine ⟨?_, ?_, ?_, ?_, ?_, ?_, ?_⟩
  · intro data sf s0 t hg ht h
    exact (MBC3.new_shape_c data sf s0 h).2 t hg (by omega) (by omega)
  · intro s0 ops s hz h
    exact MBC3.run_zero_none ops s0 s h hz
  · intro s now hz
    exact ⟨MBC3.calc_rtc_reg_none now s hz, MBC3.calc_rtc_zero_none now s hz⟩
  · intro s a i hi hon hb
    unfold MBC3.readram
    dsimp only
    rw [hon, hb]
    rw [if_neg (by simp), if_neg (by omega)]
    have hidx : (8 + i + (2 ^ 32 - 8)) % 2 ^ 32 = i := by
      have h32 : (2 : Nat) ^ 32 = 4294967296 := by norm_num
      rw [h32]
      omega
    simp only [hidx]
    rw [dif_pos hi]
  · intro s now a v i hi hz hon hb
    unfold MBC3.writeram
    dsimp only
    rw [hon, hb]
    rw [if_neg (by simp), if_neg (by omega)]
    have hidx : (8 + i + (2 ^ 32 - 8)) % 2 ^ 32 = i := by
      have h32 : (2 : Nat) ^ 32 = 4294967296 := by norm_num
      rw [h32]
      omega
    simp only [hidx]
    rw [dif_pos hi]
    rw [MBC3.calc_rtc_zero_none now]
    exact hz
  · intro s now a v s' hz h
    unfold MBC3.writerom at h
    dsimp only at h
    split_ifs at h
    all_goals first
      | exact Option.noConfusion h
      | (simp only [Option.some.injEq] at h
         subst h
         first
           | rfl
           | (rw [MBC3.calc_rtc_reg_none now s hz]))
  · intro s now a v s' hb h
    unfold MBC3.writeram at h
    dsimp only at h
    split_ifs at h
    all_goals first
      | exact Option.noConfusion h
      | (simp only [Option.some.injEq] at h
         subst h
         rfl)

/-- Claim C10, witness: on a concrete clock-incapable state with RAM
enabled and bank selector 9, `read_save` returns RTC byte 1 verbatim. -/
theorem C10_witness :
    MBC3.readram { mbc3Base with ram_on := true, rambank := 9 } 0 = some 0 :=
  C10.2.2.2.1 { mbc3Base with ram_on := true, rambank := 9 } 0 1 (by omega)
    rfl rfl

theorem MBC3.lock_eta (s : MBC3State) (h : s.rtc_lock = true) :
    ({ s with rtc_lock := true } : MBC3State) = s := by
  cases s
  simp_all

theorem MBC3.latch_stable (a : Nat) (ha1 : 0x6000 ≤ a) (ha2 : a ≤ 0x7FFF)
    (l : List (Int × Nat)) :
    ∀ s s' : MBC3State, s.rtc_lock = true →
      (∀ p ∈ l, p.2 % 256 ≠ 0) →
      MBC3.run s (l.map fun p => MBC3Op.writerom p.1 a p.2) = some s' →
      s'.rtc_ram = s.rtc_ram ∧ s'.rtc_lock = true := by
  induction l with
  | nil =>
    intro s s' hl _ hrun
    simp only [List.map_nil, MBC3.run, Option.some.injEq] at hrun
    subst hrun
    exact ⟨rfl, hl⟩
  | cons p l ih =>
    intro s s' hl hv hrun
    simp only [List.map_cons, MBC3.run] at hrun
    have hp : p.2 % 256 ≠ 0 := hv p (List.mem_cons_self p l)
    have hone : MBC3.writerom p.1 s a p.2 = some s := by
      unfold MBC3.writerom
      dsimp only
      rw [Nat.mod_eq_of_lt (show a < 65536 by omega)]
      rw [if_neg (by omega), if_neg (by omega), if_neg (by omega),
        if_pos (by omega), if_neg hp]
      by_cases h1 : p.2 % 256 = 1
      · rw [if_pos h1, hl]
        rw [if_neg (show ¬((!true) = true) from by decide)]
        rw [MBC3.lock_eta s hl]
      · rw [if_neg h1]
    rw [show MBC3.step s (MBC3Op.writerom p.1 a p.2)
        = MBC3.writerom p.1 s a p.2 from rfl, hone] at hrun
    exact ih s s' hl (fun q hq => hv q (List.mem_cons_of_mem p hq)) hrun

/-- Claim C4: the Variant C latch window `0x6000`–`0x7FFF` is
edge-triggered: value 0 clears `latched` (registers untouched); value 1
with `latched` false recomputes the registers from the epoch and sets
`latched`; value 1 while latched, or any value other than 0/1, leaves the
state unchanged; and once latched, any sequence of latch writes at
arbitrary times with values other than 0 leaves the register snapshot
stable. -/
theorem C4 (s : MBC3State) (now : Int) (a : Nat)
    (ha1 : 0x6000 ≤ a) (ha2 : a ≤ 0x7FFF) :
    MBC3.writerom now s a 0 = some { s with rtc_lock := false }
  ∧ (s.rtc_lock = false →
      MBC3.writerom now s a 1
        = some { MBC3.calc_rtc_reg now s with rtc_lock := true })
  ∧ (s.rtc_lock = true → MBC3.writerom now s a 1 = some s)
  ∧ (∀ v, 2 ≤ v → v < 256 → MBC3.writerom now s a v = some s)
  ∧ (∀ (l : List (Int × Nat)) s', s.rtc_lock = true →
      (∀ p ∈ l, p.2 % 256 ≠ 0) →
      MBC3.run s (l.map fun p => MBC3Op.writerom p.1 a p.2) = some s' →
      s'.rtc_ram = s.rtc_ram ∧ s'.rtc_lock = true) := by
  have hmod : a % 65536 = a := Nat.mod_eq_of_lt (by omega)
  refine ⟨?_, ?_, ?_, ?_, ?_⟩
  · unfold MBC3.writerom
    dsimp only
    rw [hmod, if_neg (by omega), if_neg (by omega), if_neg (by omega),
      if_pos (by omega), if_pos (show (0 : Nat) % 256 = 0 from rfl)]
  · intro hl
    unfold MBC3.writerom
    dsimp only
    rw [hmod, if_neg (by omega), if_neg (by omega), if_neg (by omega),
      if_pos (by omega), if_neg (show ¬((1 : Nat) % 256 = 0) from by decide),
      if_pos (show (1 : Nat) % 256 = 1 from rfl), hl]
    rw [if_pos (show (!false) = true from rfl)]
  · intro hl
    unfold MBC3.writerom
    dsimp only
    rw [hmod, if_neg (by omega), if_neg (by omega), if_neg (by omega),
      if_pos (by omega), if_neg (show ¬((1 : Nat) % 256 = 0) from by decide),
      if_pos (show (1 : Nat) % 256 = 1 from rfl), hl]
    rw [if_neg (show ¬((!true) = true) from by decide)]
    rw [MBC3.lock_eta s hl]
  · intro v h2 h256
    unfold MBC3.writerom
    dsimp only
    rw [hmod, Nat.mod_eq_of_lt h256, if_neg (by omega), if_neg (by omega),
      if_neg (by omega), if_pos (by omega), if_neg (by omega),
      if_neg (by omega)]
  · exact fun l s' hl hv hrun => MBC3.latch_stable a ha1 ha2 l s s' hl hv hrun

/-- Claim C4, witness: on the concrete state `w4s`, a latch-window write of
0 clears the latch and changes nothing else. -/
theorem C4_witness :
    MBC3.writerom 0 w4s 0x6000 0 = some { w4s with rtc_lock := false } :=
  (C4 w4s 0 0x6000 (by decide) (by decide)).1

/-- Full characterization of `MBC3::calc_rtc_reg` on a state with an epoch
set: halt freezes the registers; otherwise each register is derived from
`elapsed = (now - tz).toNat`, and the overflow branch also sets flags bit 7
and re-derives the epoch from the just-written registers. -/
theorem MBC3.calc_rtc_reg_spec (s : MBC3State) (now tz : Int)
    (hz : s.rtc_zero = some tz) :
    (s.rtc_ram 4 &&& 0x40 = 0x40 → MBC3.calc_rtc_reg now s = s)
  ∧ (s.rtc_ram 4 &&& 0x40 ≠ 0x40 →
      (MBC3.calc_rtc_reg now s).rtc_ram 0 = (now - tz).toNat % 60
    ∧ (MBC3.calc_rtc_reg now s).rtc_ram 1 = (now - tz).toNat / 60 % 60
    ∧ (MBC3.calc_rtc_reg now s).rtc_ram 2 = (now - tz).toNat / 3600 % 24
    ∧ (MBC3.calc_rtc_reg now s).rtc_ram 3 = (now - tz).toNat / 86400 % 256
    ∧ ((now - tz).toNat / 86400 < 512 →
        (MBC3.calc_rtc_reg now s).rtc_ram 4
          = (s.rtc_ram 4 &&& 0xFE)
              ||| ((((now - tz).toNat / 86400) >>> 8) &&& 0x01)
      ∧ (MBC3.calc_rtc_reg now s).rtc_zero = some tz)
    ∧ (512 ≤ (now - tz).toNat / 86400 →
        (MBC3.calc_rtc_reg now s).rtc_ram 4
          = ((s.rtc_ram 4 &&& 0xFE)
              ||| ((((now - tz).toNat / 86400) >>> 8) &&& 0x01)) ||| 0x80
      ∧ (MBC3.calc_rtc_reg now s).rtc_zero
          = some (now - (((now - tz).toNat % 60 : Nat) : Int)
              - (((now - tz).toNat / 60 % 60 : Nat) : Int) * 60
              - (((now - tz).toNat / 3600 % 24 : Nat) : Int) * 3600
              - ((((((s.rtc_ram 4 &&& 0xFE)
                      ||| ((((now - tz).toNat / 86400) >>> 8) &&& 0x01))
                      ||| 0x80) &&& 0x1) <<< 8
                  ||| ((now - tz).toNat / 86400 % 256) : Nat) : Int)
                * 3600 * 24))) := by
  constructor
  · intro hhalt
    unfold MBC3.calc_rtc_reg
    rw [hz]
    dsimp only
    rw [if_pos hhalt]
  · intro hhalt
    unfold MBC3.calc_rtc_reg
    rw [hz]
    dsimp only
    rw [if_neg hhalt]
    by_cases hover : 512 ≤ (now - tz).toNat / 86400
    · rw [if_pos (show 512 ≤ (now - tz).toNat / (3600 * 24) by omega)]
      refine ⟨?_, ?_, ?_, ?_, fun h => absurd hover (by omega),
        fun _ => ⟨?_, ?_⟩⟩
      · rw [MBC3.calc_rtc_zero_rtc_ram]
        simp [Function.update_apply]
      · rw [MBC3.calc_rtc_zero_rtc_ram]
        simp [Function.update_apply]
      · rw [MBC3.calc_rtc_zero_rtc_ram]
        simp [Function.update_apply]
      · rw [MBC3.calc_rtc_zero_rtc_ram]
        simp [Function.update_apply]
      · rw [MBC3.calc_rtc_zero_rtc_ram]
        simp [Function.update_apply]
      · unfold MBC3.calc_rtc_zero
        dsimp only
        simp [Function.update_apply]
    · rw [if_neg (show ¬ 512 ≤ (now - tz).toNat / (3600 * 24) by omega)]
      refine ⟨?_, ?_, ?_, ?_, fun _ => ⟨?_, ?_⟩, fun h => absurd h (by omega)⟩
      · simp [Function.update_apply]
      · simp [Function.update_apply]
      · simp [Function.update_apply]
      · simp [Function.update_apply]
      · simp [Function.update_apply]
      · rfl

/-- Claim C3: with an epoch set, the register derivation is a no-op when the
halt flag (flags bit 6) is set; otherwise, with `elapsed = max 0 (now - rtc_zero)`
(written `(now - tz).toNat`), it sets seconds = elapsed mod 60, minutes =
elapsed / 60 mod 60, hours = elapsed / 3600 mod 24, day-low byte =
elapsed / 86400 mod 256 and flags bit 0 = bit 8 of elapsed / 86400; and when
`elapsed / 86400 ≥ 512` it additionally sets flags bit 7 and re-derives
`rtc_zero` from the just-computed register values. -/
theorem C3 (s : MBC3State) (now tz : Int) (hz : s.rtc_zero = some tz) :
    (s.rtc_ram 4 &&& 0x40 = 0x40 → MBC3.calc_rtc_reg now s = s)
  ∧ (s.rtc_ram 4 &&& 0x40 ≠ 0x40 →
      (MBC3.calc_rtc_reg now s).rtc_ram 0 = (now - tz).toNat % 60
    ∧ (MBC3.calc_rtc_reg now s).rtc_ram 1 = (now - tz).toNat / 60 % 60
    ∧ (MBC3.calc_rtc_reg now s).rtc_ram 2 = (now - tz).toNat / 3600 % 24
    ∧ (MBC3.calc_rtc_reg now s).rtc_ram 3 = (now - tz).toNat / 86400 % 256
    ∧ ((now - tz).toNat / 86400 < 512 →
        (MBC3.calc_rtc_reg now s).rtc_ram 4
          = (s.rtc_ram 4 &&& 0xFE)
              ||| ((((now - tz).toNat / 86400) >>> 8) &&& 0x01)
      ∧ (MBC3.calc_rtc_reg now s).rtc_zero = some tz)
    ∧ (512 ≤ (now - tz).toNat / 86400 →
        (MBC3.calc_rtc_reg now s).rtc_ram 4
          = ((s.rtc_ram 4 &&& 0xFE)
              ||| ((((now - tz).toNat / 86400) >>> 8) &&& 0x01)) ||| 0x80
      ∧ (MBC3.calc_rtc_reg now s).rtc_zero
          = some (now - (((now - tz).toNat % 60 : Nat) : Int)
              - (((now - tz).toNat / 60 % 60 : Nat) : Int) * 60
              - (((now - tz).toNat / 3600 % 24 : Nat) : Int) * 3600
              - ((((((s.rtc_ram 4 &&& 0xFE)
                      ||| ((((now - tz).toNat / 86400) >>> 8) &&& 0x01))
                      ||| 0x80) &&& 0x1) <<< 8
                  ||| ((now - tz).toNat / 86400 % 256) : Nat) : Int)
                * 3600 * 24))) :=
  MBC3.calc_rtc_reg_spec s now tz hz

/-- Claim C3, witness: on the concrete state `w3s` (epoch 5) at time 100,
elapsed is 95: seconds 35, minutes 1, and the epoch is left unchanged. -/
theorem C3_witness :
    (MBC3.calc_rtc_reg 100 w3s).rtc_ram 0 = 35
  ∧ (MBC3.calc_rtc_reg 100 w3s).rtc_ram 1 = 1
  ∧ (MBC3.calc_rtc_reg 100 w3s).rtc_zero = some 5 := by
  have h := (C3 w3s 100 5 rfl).2 (by decide)
  refine ⟨?_, ?_, (h.2.2.2.2.1 (by decide)).2⟩
  · rw [h.1]
    decide
  · rw [h.2.1]
    decide

theorem lor256 : ∀ r < 256, 256 ||| r = 256 + r := by decide

theorem and254_or1 : ∀ x < 256, (x &&& 0xFE) ||| (x &&& 0x1) = x := by decide

/-- Claim C7: with an epoch present, halt clear, and register values in
range, running the epoch derivation and then the register derivation at the
same instant reproduces exactly the same five register values. -/
theorem C7 (s : MBC3State) (now tz : Int) (hz : s.rtc_zero = some tz)
    (hhalt : s.rtc_ram 4 &&& 0x40 ≠ 0x40)
    (h0 : s.rtc_ram 0 < 60) (h1 : s.rtc_ram 1 < 60) (h2 : s.rtc_ram 2 < 24)
    (h3 : s.rtc_ram 3 < 256) (h4 : s.rtc_ram 4 < 256) :
    (MBC3.calc_rtc_reg now (MBC3.calc_rtc_zero now s)).rtc_ram = s.rtc_ram := by
  have hble : s.rtc_ram 4 &&& 0x1 ≤ 1 := Nat.and_le_right
  have hd : (((s.rtc_ram 4 &&& 0x1) <<< 8) ||| s.rtc_ram 3 : Nat)
      = (s.rtc_ram 4 &&& 0x1) * 256 + s.rtc_ram 3 := by
    rcases (by omega : s.rtc_ram 4 &&& 0x1 = 0 ∨ s.rtc_ram 4 &&& 0x1 = 1) with
      hb0 | hb1
    · rw [hb0]
      simp
    · rw [hb1, Nat.shiftLeft_eq]
      norm_num
      exact lor256 (s.rtc_ram 3) h3
  have hs1 : MBC3.calc_rtc_zero now s
      = { s with rtc_zero := some (now - ((s.rtc_ram 0 : Nat) : Int)
          - ((s.rtc_ram 1 : Nat) : Int) * 60
          - ((s.rtc_ram 2 : Nat) : Int) * 3600
          - ((((s.rtc_ram 4 &&& 0x1) <<< 8) ||| s.rtc_ram 3 : Nat) : Int)
            * 3600 * 24) } := by
    unfold MBC3.calc_rtc_zero
    rw [hz]
    rfl
  rw [hs1]
  set dv : Int := now - ((s.rtc_ram 0 : Nat) : Int)
      - ((s.rtc_ram 1 : Nat) : Int) * 60 - ((s.rtc_ram 2 : Nat) : Int) * 3600
      - ((((s.rtc_ram 4 &&& 0x1) <<< 8) ||| s.rtc_ram 3 : Nat) : Int)
        * 3600 * 24 with hdv
  set s1 : MBC3State := { s with rtc_zero := some dv } with hs1def
  have hspec := (MBC3.calc_rtc_reg_spec s1 now dv rfl).2 (by exact hhalt)
  have hE : (now - dv).toNat
      = s.rtc_ram 0 + s.rtc_ram 1 * 60 + s.rtc_ram 2 * 3600
        + ((s.rtc_ram 4 &&& 0x1) * 256 + s.rtc_ram 3) * 86400 := by
    rw [hdv, hd]
    push_cast
    omega
  have hdays : (now - dv).toNat / 86400
      = (s.rtc_ram 4 &&& 0x1) * 256 + s.rtc_ram 3 := by omega
  have hlt : (now - dv).toNat / 86400 < 512 := by omega
  have hbit : ((now - dv).toNat / 86400) >>> 8 = s.rtc_ram 4 &&& 0x1 := by
    rw [Nat.shiftRight_eq_div_pow, hdays,
      show (2 : Nat) ^ 8 = 256 from by norm_num]
    omega
  funext j
  fin_cases j
  · show (MBC3.calc_rtc_reg now s1).rtc_ram 0 = s.rtc_ram 0
    rw [hspec.1]
    omega
  · show (MBC3.calc_rtc_reg now s1).rtc_ram 1 = s.rtc_ram 1
    rw [hspec.2.1]
    omega
  · show (MBC3.calc_rtc_reg now s1).rtc_ram 2 = s.rtc_ram 2
    rw [hspec.2.2.1]
    omega
  · show (MBC3.calc_rtc_reg now s1).rtc_ram 3 = s.rtc_ram 3
    rw [hspec.2.2.2.1]
    omega
  · show (MBC3.calc_rtc_reg now s1).rtc_ram 4 = s.rtc_ram 4
    rw [(hspec.2.2.2.2.1 hlt).1, hbit]
    have hs14 : s1.rtc_ram 4 = s.rtc_ram 4 := rfl
    rw [hs14, Nat.and_assoc, show (0x1 &&& 0x01 : Nat) = 0x1 from rfl]
    exact and254_or1 (s.rtc_ram 4) h4

/-- Claim C7, witness: round-tripping the concrete in-range state `w7s`
(seconds 35, minutes 1) through both derivations at time 1000 reproduces
its registers exactly. -/
theorem C7_witness :
    (MBC3.calc_rtc_reg 1000 (MBC3.calc_rtc_zero 1000 w7s)).rtc_ram
      = w7s.rtc_ram :=
  C7 w7s 1000 0 rfl (by decide) (by decide) (by decide) (by decide)
    (by decide) (by decide)

theorem MBC1.loadram_none_b (s : MBC1State) : MBC1.loadram none s = s := by
  unfold MBC1.loadram
  split_ifs <;> rfl

theorem MBC3.loadram_none_c (s : MBC3State) : MBC3.loadram none s = s := by
  unfold MBC3.loadram
  split_ifs <;> rfl

/-- Claim C8 (amended): the loader fails with "image too small" exactly when
the image has fewer than `0x149` bytes; otherwise it dispatches on the type
byte — `0x00` builds Variant A; `0x01` builds Variant B; `0x02`/`0x03`
(Variant B) and `0x10`/`0x12`/`0x13` (Variant C) consult the RAM-size byte
at `0x149` and therefore build only when the image has at least `0x14A`
bytes, failing with an out-of-bounds header read on a `0x149`-byte image;
`0x0F`/`0x11` build Variant C without consulting `0x149`; any other type
byte fails with "unsupported cartridge type" naming the byte; and the
declared SaveMemory size is `0x800`/`0x2000`/`0x8000` for RAM-size codes
1/2/3 and 0 otherwise. -/
theorem C8 :
    (∀ data sf1 sf3,
      get_mbc data sf1 sf3 = Except.error LoadError.tooSmall
        ↔ data.length < 0x149)
  ∧ (∀ data sf1 sf3 t, 0x149 ≤ data.length → data.get? 0x147 = some t →
      (t = 0 → get_mbc data sf1 sf3
          = Except.ok (Device.mbc0 { rom := data }))
    ∧ (t = 1 → ∃ m, get_mbc data sf1 sf3 = Except.ok (Device.mbc1 m)
        ∧ m.rom = data ∧ m.ram.length = 0)
    ∧ ((t = 2 ∨ t = 3) → 0x14A ≤ data.length → sf1 = none →
        ∃ c m, data.get? 0x149 = some c
          ∧ get_mbc data sf1 sf3 = Except.ok (Device.mbc1 m)
          ∧ m.ram.length = ram_size c)
    ∧ ((t = 2 ∨ t = 3) → data.length = 0x149 →
        get_mbc data sf1 sf3 = Except.error LoadError.outOfBounds)
    ∧ ((t = 0x0F ∨ t = 0x11) → sf3 = none →
        ∃ m, get_mbc data sf1 sf3 = Except.ok (Device.mbc3 m)
          ∧ m.ram.length = 0)
    ∧ ((t = 0x10 ∨ t = 0x12 ∨ t = 0x13) → 0x14A ≤ data.length →
        sf3 = none →
        ∃ c m, data.get? 0x149 = some c
          ∧ get_mbc data sf1 sf3 = Except.ok (Device.mbc3 m)
          ∧ m.ram.length = ram_size c)
    ∧ ((t = 0x10 ∨ t = 0x12 ∨ t = 0x13) → data.length = 0x149 →
        get_mbc data sf1 sf3 = Except.error LoadError.outOfBounds)
    ∧ (¬(t = 0 ∨ (1 ≤ t ∧ t ≤ 3) ∨ (0x0F ≤ t ∧ t ≤ 0x13)) →
        get_mbc data sf1 sf3 = Except.error (LoadError.unsupported t)))
  ∧ (ram_size 1 = 0x800 ∧ ram_size 2 = 0x2000 ∧ ram_size 3 = 0x8000
      ∧ ∀ c, c ≠ 1 → c ≠ 2 → c ≠ 3 → ram_size c = 0) := by
  refine ⟨?_, ?_, rfl, rfl, rfl, ?_⟩
  · intro data sf1 sf3
    constructor
    · intro h
      by_contra hlen
      unfold get_mbc at h
      rw [if_neg hlen] at h
      have h147 : 0x147 < data.length := by omega
      rw [List.get?_eq_get h147] at h
      dsimp only at h
      by_cases h0 : data.get ⟨0x147, h147⟩ = 0
      · rw [if_pos h0] at h
        exact Except.noConfusion h
      · rw [if_neg h0] at h
        by_cases h13 : 1 ≤ data.get ⟨0x147, h147⟩ ∧ data.get ⟨0x147, h147⟩ ≤ 3
        · rw [if_pos h13] at h
          cases hn : MBC1.new data sf1 with
          | none => rw [hn] at h; simp at h
          | some m => rw [hn] at h; exact Except.noConfusion h
        · rw [if_neg h13] at h
          by_cases hF : 0x0F ≤ data.get ⟨0x147, h147⟩
              ∧ data.get ⟨0x147, h147⟩ ≤ 0x13
          · rw [if_pos hF] at h
            cases hn : MBC3.new data sf3 with
            | none => rw [hn] at h; simp at h
            | some m => rw [hn] at h; exact Except.noConfusion h
          · rw [if_neg hF] at h
            simp at h
    · intro hlen
      unfold get_mbc
      rw [if_pos hlen]
  · intro data sf1 sf3 t hlen hget
    have hnl : ¬ data.length < 0x149 := by omega
    refine ⟨?_, ?_, ?_, ?_, ?_, ?_, ?_, ?_⟩
    · rintro rfl
      unfold get_mbc
      rw [if_neg hnl, hget]
      dsimp only
      rw [if_pos rfl]
    · rintro rfl
      have hmain : get_mbc data sf1 sf3
          = Except.ok (Device.mbc1 { rom := data, ram := List.replicate 0 0, ram_on := false, ram_mode := false, rombank := 1, rambank := 0, savepath := 1 == 3 }) := by
        unfold get_mbc
        rw [if_neg hnl, hget]
        dsimp only
        rw [if_neg (by omega), if_pos (by omega)]
        unfold MBC1.new
        rw [hget]
        dsimp only
        rw [if_neg (by omega)]
        rfl
      exact ⟨_, hmain, rfl, rfl⟩
    · intro ht hlen2 hsf
      subst hsf
      have h149 : 0x149 < data.length := by omega
      have hmain : get_mbc data none sf3
          = Except.ok (Device.mbc1 { rom := data, ram := List.replicate (ram_size (data.get ⟨0x149, h149⟩)) 0, ram_on := false, ram_mode := false, rombank := 1, rambank := 0, savepath := t == 3 }) := by
        unfold get_mbc
        rw [if_neg hnl, hget]
        dsimp only
        rw [if_neg (by rcases ht with rfl | rfl <;> omega),
          if_pos (by rcases ht with rfl | rfl <;> omega)]
        unfold MBC1.new
        rw [hget]
        dsimp only
        rw [if_pos ht, List.get?_eq_get h149, Option.map_some']
        dsimp only
        rw [MBC1.loadram_none_b]
      exact ⟨data.get ⟨0x149, h149⟩, _, List.get?_eq_get h149, hmain,
        List.length_replicate _ _⟩
    · intro ht hlen9
      unfold get_mbc
      rw [if_neg hnl, hget]
      dsimp only
      rw [if_neg (by rcases ht with rfl | rfl <;> omega),
        if_pos (by rcases ht with rfl | rfl <;> omega)]
      have hnone : MBC1.new data sf1 = none := by
        unfold MBC1.new
        rw [hget]
        dsimp only
        rw [if_pos ht,
          (List.get?_eq_none.mpr (by omega) : data.get? 0x149 = none)]
        rfl
      rw [hnone]
    · intro ht hsf
      subst hsf
      have hmain : get_mbc data sf1 none
          = Except.ok (Device.mbc3 { rom := data, ram := List.replicate 0 0, rombank := 1, rambank := 0, ram_on := false, savepath := t == 0x0F || t == 0x10 || t == 0x13, rtc_ram := fun _ => 0, rtc_lock := false, rtc_zero := if t = 0x0F ∨ t = 0x10 then some 0 else none }) := by
        unfold get_mbc
        rw [if_neg hnl, hget]
        dsimp only
        rw [if_neg (by rcases ht with rfl | rfl <;> omega),
          if_neg (by rcases ht with rfl | rfl <;> omega),
          if_pos (by rcases ht with rfl | rfl <;> omega)]
        unfold MBC3.new
        rw [hget]
        dsimp only
        rw [if_neg (by rcases ht with rfl | rfl <;> omega)]
        dsimp only
        rw [MBC3.loadram_none_c]
      exact ⟨_, hmain, rfl⟩
    · intro ht hlen2 hsf
      subst hsf
      have h149 : 0x149 < data.length := by omega
      have hmain : get_mbc data sf1 none
          = Except.ok (Device.mbc3 { rom := data, ram := List.replicate (ram_size (data.get ⟨0x149, h149⟩)) 0, rombank := 1, rambank := 0, ram_on := false, savepath := t == 0x0F || t == 0x10 || t == 0x13, rtc_ram := fun _ => 0, rtc_lock := false, rtc_zero := if t = 0x0F ∨ t = 0x10 then some 0 else none }) := by
        unfold get_mbc
        rw [if_neg hnl, hget]
        dsimp only
        rw [if_neg (by rcases ht with rfl | rfl | rfl <;> omega),
          if_neg (by rcases ht with rfl | rfl | rfl <;> omega),
          if_pos (by rcases ht with rfl | rfl | rfl <;> omega)]
        unfold MBC3.new
        rw [hget]
        dsimp only
        rw [if_pos ht, List.get?_eq_get h149, Option.map_some']
        dsimp only
        rw [MBC3.loadram_none_c]
      exact ⟨data.get ⟨0x149, h149⟩, _, List.get?_eq_get h149, hmain,
        List.length_replicate _ _⟩
    · intro ht hlen9
      unfold get_mbc
      rw [if_neg hnl, hget]
      dsimp only
      rw [if_neg (by rcases ht with rfl | rfl | rfl <;> omega),
        if_neg (by rcases ht with rfl | rfl | rfl <;> omega),
        if_pos (by rcases ht with rfl | rfl | rfl <;> omega)]
      have hnone : MBC3.new data sf3 = none := by
        unfold MBC3.new
        rw [hget]
        dsimp only
        rw [if_pos ht,
          (List.get?_eq_none.mpr (by omega) : data.get? 0x149 = none)]
        rfl
      rw [hnone]
    · intro hu
      unfold get_mbc
      rw [if_neg hnl, hget]
      dsimp only
      rw [if_neg (fun h => hu (Or.inl h)),
        if_neg (fun h => hu (Or.inr (Or.inl h))),
        if_neg (fun h => hu (Or.inr (Or.inr h)))]
  · exact fun c hc1 hc2 hc3 => by
      unfold ram_size
      rw [if_neg hc1, if_neg hc2, if_neg hc3]

/-- Claim C8, witness: the empty image fails with the "image too small"
condition. -/
theorem C8_witness : get_mbc [] none none = Except.error LoadError.tooSmall :=
  (C8.1 [] none none).mpr (by decide)
